import Mathlib

/-!
Verification of the Zen pipeline orchestrator (`src/zen.py`).

Shallow embedding of the `Zen` class: construction-time validation
(`Zen.__init__`, `Zen._validate_environment`), the cleanup wrapper
(`Zen._cleanup`) and the staged pipeline (`Zen.run`).

External collaborators (`GitManager`, `KnowledgeBase`, `EvolutionEngine`)
are modelled as a record of behaviours: each operation either returns a
value or raises a Python exception, modelled as `Except PyExn`.  `run`
is embedded as a total function returning the final result dictionary
together with a trace of collaborator invocations (events), so that
temporal claims ("cleanup invoked exactly once", "apply never invoked")
become statements about the trace.
-/

namespace Zen

/-- A Python exception as observed by `run`'s handlers: whether it is a
`ZenConfigError` (`isinstance` check of the first `except` clause), its
class name (`type(e).__name__`) and its message (`str(e)`). -/
structure PyExn where
  isConfig : Bool
  name : String
  msg : String
deriving Repr, DecidableEq

/-- The constant `REQUIRED_ENV_VARS` from zen.py line 28. -/
def REQUIRED_ENV_VARS : List String := ["GITHUB_TOKEN", "GEMINI_API_KEY"]

/-- The process environment: an association list of variable/value pairs. -/
def Env : Type := List (String × String)

/-- Model of `os.getenv`: the value of the first binding of `v`, or `none`. -/
def getenv (env : Env) (v : String) : Option String :=
  (env.find? (fun p => p.1 == v)).map (fun p => p.2)

/-- Python truthiness test `not os.getenv(var)`: true when the variable is
unset or set to the empty string (both are falsy in Python). -/
def envFalsy (env : Env) (v : String) : Bool :=
  match getenv env v with
  | none => true
  | some s => s == ""

/-- The list `missing = [var for var in REQUIRED_ENV_VARS if not os.getenv(var)]`
(zen.py line 89). -/
def missingVars (env : Env) : List String :=
  REQUIRED_ENV_VARS.filter (envFalsy env)

/-- Embedding of `Zen._validate_environment` (zen.py lines 85-94): raises `ZenConfigError`
listing the missing variables, joined with `", "`, when any are missing. -/
def validate_environment (env : Env) : Except PyExn Unit :=
  let missing := missingVars env
  if missing.isEmpty then Except.ok ()
  else Except.error
    ⟨true, "ZenConfigError",
      "Missing required environment variables: " ++ String.intercalate ", " missing⟩

/-- The validated `Zen` instance state: the fields `__init__` stores. -/
structure ZenState where
  target_repo_url : String
  source_repo_urls : List String
  files_to_update : List String
  branch_name : String
  max_iterations : Int
  safety_checks : Bool
deriving Repr, DecidableEq

/-- Construction-time side effects observable from outside `__init__`:
instantiation of each collaborator (zen.py lines 75-80). -/
inductive InitEvent where
  | gitManagerInit
  | knowledgeBaseInit
  | evolutionEngineInit
deriving Repr, DecidableEq

/-- Embedding of `Zen.__init__` (zen.py lines 50-83): rejects an empty (falsy) target
URL first, stores the fields (`files_to_update` defaulting to empty when
`None`), instantiates the three collaborators, then validates the
environment.  Returns the constructed state or the raised exception,
together with the list of collaborator instantiations performed. -/
def zen_init (env : Env) (target_repo_url : String) (source_repo_urls : List String)
    (files_to_update : Option (List String)) (branch_name : String)
    (max_iterations : Int) (safety_checks : Bool) :
    Except PyExn ZenState × List InitEvent :=
  if target_repo_url = "" then
    (Except.error ⟨true, "ZenConfigError", "Target repository URL cannot be empty."⟩, [])
  else
    let st : ZenState :=
      { target_repo_url := target_repo_url
        source_repo_urls := source_repo_urls
        files_to_update := files_to_update.getD []
        branch_name := branch_name
        max_iterations := max_iterations
        safety_checks := safety_checks }
    let events := [InitEvent.gitManagerInit, InitEvent.knowledgeBaseInit,
                   InitEvent.evolutionEngineInit]
    match validate_environment env with
    | Except.error e => (Except.error e, events)
    | Except.ok _ => (Except.ok st, events)

/-- Behaviour of the external collaborators: each operation either returns
or raises.  `generate_improvements` receives the knowledge-base state
(`none` = never built, `some ps` = built from `ps`), mirroring that the
`KnowledgeBase` object is passed to the engine after an optional `build`. -/
structure Collab where
  clone_repositories : List String → Except PyExn (List String)
  knowledge_build : List String → Except PyExn Unit
  generate_improvements : Option (List String) → String → List String →
    Except PyExn (List String)
  apply_improvements : String → List String → String → String →
    Except PyExn (List String)
  cleanup_local_paths : List String → Except PyExn Unit
deriving Inhabited

/-- Collaborator invocations observable during `run`. -/
inductive Event where
  | cloneCall (urls : List String)
  | kbBuildCall (paths : List String)
  | generateCall (kb : Option (List String)) (target : String) (files : List String)
  | applyCall (target : String) (improvements : List String)
      (branch : String) (commitMessage : String)
  | cleanupEnter (paths : List String)
  | cleanupCall (paths : List String)
deriving Repr, DecidableEq

/-- The `files_targeted` value: `len(self.files_to_update) or 'All'` — the
string `'All'` when the count is zero (falsy), else the count. -/
inductive FilesTargeted where
  | count (n : Nat)
  | all
deriving Repr, DecidableEq

/-- Computation of `len(self.files_to_update) or 'All'` (zen.py line 133). -/
def filesTargetedOf (files : List String) : FilesTargeted :=
  if files.length = 0 then FilesTargeted.all else FilesTargeted.count files.length

/-- The run result dictionary.  Optional fields model keys that are only
present when some stage has set them (`improvements_generated`,
`new_branch`, `error`; `target_path` starts as Python `None`). -/
structure RunResult where
  success : Bool
  repositories_analyzed : Nat
  improvements_applied : Nat
  files_targeted : FilesTargeted
  target_path : Option String
  improvements_generated : Option Nat
  new_branch : Option String
  error : Option String
deriving Repr, DecidableEq

/-- The result dictionary as initialized before the `try` body
(zen.py lines 129-135). -/
def initResult (z : ZenState) (total : Nat) : RunResult :=
  { success := false
    repositories_analyzed := total
    improvements_applied := 0
    files_targeted := filesTargetedOf z.files_to_update
    target_path := none
    improvements_generated := none
    new_branch := none
    error := none }

/-- The `RuntimeError` raised on a clone-count mismatch (zen.py line 143). -/
def integrityErr : PyExn :=
  ⟨false, "RuntimeError", "GitManager failed to clone all specified repositories."⟩

/-- Step 3 of `run`: `self.knowledge_base.build(source_paths)` guarded by
`if source_paths:` (zen.py lines 153-155).  Returns the knowledge-base
state passed on to the engine, or the raised exception, with the trace. -/
def stage_kb (c : Collab) (source_paths : List String) :
    Except PyExn (Option (List String)) × List Event :=
  if source_paths.isEmpty then (Except.ok none, [])
  else
    match c.knowledge_build source_paths with
    | Except.ok _ => (Except.ok (some source_paths), [Event.kbBuildCall source_paths])
    | Except.error e => (Except.error e, [Event.kbBuildCall source_paths])

/-- The commit message built at zen.py line 171:
`f"Zen Improvement: Applied {len(improvements)} generated changes."` —
`n` is `len(improvements)`, the count of *generated* improvements. -/
def commitMsgFor (n : Nat) : String :=
  "Zen Improvement: Applied " ++ toString n ++ " generated changes."

/-- Steps 4-6 of `run` (zen.py lines 157-189): generate improvements, the
no-op early return when none were generated, otherwise build the commit
message from the generated count and apply.  Takes the result dictionary
as updated so far (`r1`, with `target_path` recorded) and returns the
result as further mutated, the escaping exception if any, and the trace. -/
def stage_genApply (c : Collab) (z : ZenState) (r1 : RunResult)
    (kb : Option (List String)) (target_path : String) :
    RunResult × Option PyExn × List Event :=
  match c.generate_improvements kb target_path z.files_to_update with
  | Except.error e =>
      (r1, some e, [Event.generateCall kb target_path z.files_to_update])
  | Except.ok improvements =>
    if improvements.isEmpty then
      ({ r1 with success := true, improvements_generated := some 0 }, none,
       [Event.generateCall kb target_path z.files_to_update])
    else
      let commit_msg := commitMsgFor improvements.length
      match c.apply_improvements target_path improvements z.branch_name commit_msg with
      | Except.error e =>
          (r1, some e,
           [Event.generateCall kb target_path z.files_to_update,
            Event.applyCall target_path improvements z.branch_name commit_msg])
      | Except.ok applied_details =>
          ({ r1 with
              improvements_generated := some improvements.length
              improvements_applied := applied_details.length
              new_branch := some z.branch_name
              success := true }, none,
           [Event.generateCall kb target_path z.files_to_update,
            Event.applyCall target_path improvements z.branch_name commit_msg])

/-- Outcome of the `try` body of `run`: the result dictionary as mutated
when the body finished (normally or by exception), the exception that
escaped the body (if any), the value of `all_local_paths` at that moment,
and the collaborator-invocation trace. -/
structure BodyOut where
  result : RunResult
  exn : Option PyExn
  all_local_paths : List String
  trace : List Event
deriving Repr, DecidableEq

/-- The `try` body of `Zen.run` (zen.py lines 137-189): clone, integrity
check, partition target/sources, build knowledge, generate, apply. -/
def runBody (c : Collab) (z : ZenState) : BodyOut :=
  let repo_urls_to_clone := z.source_repo_urls ++ [z.target_repo_url]
  let total_repos := repo_urls_to_clone.length
  let r0 := initResult z total_repos
  match c.clone_repositories repo_urls_to_clone with
  | Except.error e =>
      ⟨r0, some e, [], [Event.cloneCall repo_urls_to_clone]⟩
  | Except.ok cloned_paths =>
    if cloned_paths.length ≠ total_repos then
      ⟨r0, some integrityErr, cloned_paths, [Event.cloneCall repo_urls_to_clone]⟩
    else
      let target_path := cloned_paths.getLastD ""
      let source_paths := cloned_paths.dropLast
      let r1 := { r0 with target_path := some target_path }
      match stage_kb c source_paths with
      | (Except.error e, tr) =>
          ⟨r1, some e, cloned_paths, Event.cloneCall repo_urls_to_clone :: tr⟩
      | (Except.ok kb, tr) =>
          let out := stage_genApply c z r1 kb target_path
          ⟨out.1, out.2.1, cloned_paths,
           Event.cloneCall repo_urls_to_clone :: (tr ++ out.2.2)⟩

/-- Embedding of `Zen._cleanup` (zen.py lines 96-108): returns immediately when the
path list is empty; otherwise invokes `cleanup_local_paths`, catching and
discarding any exception it raises.  Returns the trace of the call. -/
def zen_cleanup (c : Collab) (local_paths : List String) : List Event :=
  Event.cleanupEnter local_paths ::
    (if local_paths.isEmpty then []
     else
       match c.cleanup_local_paths local_paths with
       | Except.ok _ => [Event.cleanupCall local_paths]
       | Except.error _ => [Event.cleanupCall local_paths])

/-- The error message stored by the two `except` handlers
(zen.py lines 191-200). -/
def classifyError (e : PyExn) : String :=
  if e.isConfig then "Configuration Error: " ++ e.msg
  else "Operational failure: " ++ e.name ++ ": " ++ e.msg

/-- Embedding of `Zen.run` (zen.py lines 110-204): runs the body, converts an escaping
exception into `result['error']`, and executes `_cleanup(all_local_paths)`
in the `finally` block on every exit path. -/
def run (c : Collab) (z : ZenState) : RunResult × List Event :=
  let b := runBody c z
  let rFinal :=
    match b.exn with
    | none => b.result
    | some e => { b.result with error := some (classifyError e) }
  (rFinal, b.trace ++ zen_cleanup c b.all_local_paths)

/-- Arguments of all `cleanup_local_paths` collaborator invocations in a
trace, in order. -/
def cleanupCallArgs (tr : List Event) : List (List String) :=
  tr.filterMap (fun e =>
    match e with
    | Event.cleanupCall ps => some ps
    | _ => none)

/-- Arguments of all `Zen._cleanup` wrapper invocations in a trace. -/
def cleanupEnterArgs (tr : List Event) : List (List String) :=
  tr.filterMap (fun e =>
    match e with
    | Event.cleanupEnter ps => some ps
    | _ => none)

/-- Arguments of all `knowledge_base.build` invocations in a trace. -/
def kbBuildArgs (tr : List Event) : List (List String) :=
  tr.filterMap (fun e =>
    match e with
    | Event.kbBuildCall ps => some ps
    | _ => none)

/-- Arguments of all `apply_improvements` invocations in a trace. -/
def applyCallArgs (tr : List Event) :
    List (String × List String × String × String) :=
  tr.filterMap (fun e =>
    match e with
    | Event.applyCall t imps b m => some (t, imps, b, m)
    | _ => none)

/-- The list `repo_urls_to_clone` (zen.py line 125): sources followed by the target. -/
def cloneUrls (z : ZenState) : List String :=
  z.source_repo_urls ++ [z.target_repo_url]

/-- The result dictionary after `result['target_path']` is recorded
(zen.py line 148). -/
def r1Of (z : ZenState) (ps : List String) : RunResult :=
  { initResult z (cloneUrls z).length with target_path := some (ps.getLastD "") }

/-! ## Concrete collaborator behaviours and requests for witnesses -/

/-- A request with two source addresses and one target. -/
def zTwoSources : ZenState :=
  { target_repo_url := "T", source_repo_urls := ["S1", "S2"], files_to_update := []
    branch_name := "zen-improvement", max_iterations := 10, safety_checks := true }

/-- A request with no source addresses. -/
def zNoSources : ZenState :=
  { target_repo_url := "T", source_repo_urls := [], files_to_update := []
    branch_name := "zen-improvement", max_iterations := 10, safety_checks := true }

/-- Well-behaved collaborators whose generator finds nothing to improve. -/
def collabNoop : Collab :=
  { clone_repositories := fun urls => Except.ok (urls.map (fun u => "/tmp/" ++ u))
    knowledge_build := fun _ => Except.ok ()
    generate_improvements := fun _ _ _ => Except.ok []
    apply_improvements := fun _ _ _ _ => Except.ok []
    cleanup_local_paths := fun _ => Except.ok () }

/-- Collaborators whose clone call raises before returning any paths. -/
def collabCloneFail : Collab :=
  { collabNoop with
    clone_repositories := fun _ => Except.error ⟨false, "OSError", "network down"⟩ }

/-- Collaborators whose clone call returns a single path regardless of how
many repositories were requested. -/
def collabShortClone : Collab :=
  { collabNoop with clone_repositories := fun _ => Except.ok ["/tmp/only"] }

/-- Collaborators that generate two improvements of which the apply call
reports only one applied. -/
def collabPartialApply : Collab :=
  { collabNoop with
    generate_improvements := fun _ _ _ => Except.ok ["i1", "i2"]
    apply_improvements := fun _ _ _ _ => Except.ok ["a1"] }

/-! ## Stage-level lemmas -/

/-- Fields `stage_genApply` never changes: `repositories_analyzed`,
`files_targeted` and `error`. -/
lemma stage_genApply_preserves (c : Collab) (z : ZenState) (r1 : RunResult)
    (kb : Option (List String)) (tp : String) :
    (stage_genApply c z r1 kb tp).1.repositories_analyzed = r1.repositories_analyzed ∧
    (stage_genApply c z r1 kb tp).1.files_targeted = r1.files_targeted ∧
    (stage_genApply c z r1 kb tp).1.error = r1.error := by
  unfold stage_genApply
  cases c.generate_improvements kb tp z.files_to_update with
  | error e => simp
  | ok improvements =>
    by_cases hi : improvements.isEmpty
    · simp [hi]
    · simp only [hi, Bool.false_eq_true, if_false]
      cases c.apply_improvements tp improvements z.branch_name
        (commitMsgFor improvements.length) <;> simp

/-- When `stage_genApply` lets an exception escape, the result dictionary
is unchanged from `r1`. -/
lemma stage_genApply_exn_result (c : Collab) (z : ZenState) (r1 : RunResult)
    (kb : Option (List String)) (tp : String) :
    ∀ e : PyExn, (stage_genApply c z r1 kb tp).2.1 = some e →
      (stage_genApply c z r1 kb tp).1 = r1 := by
  unfold stage_genApply
  cases c.generate_improvements kb tp z.files_to_update with
  | error e => simp
  | ok improvements =>
    by_cases hi : improvements = []
    · simp [hi]
    · simp only [List.isEmpty_eq_true, hi, if_false]
      cases c.apply_improvements tp improvements z.branch_name
        (commitMsgFor improvements.length) <;> simp

/-- The `stage_genApply` trace contains no knowledge-build and no cleanup
events. -/
lemma stage_genApply_trace (c : Collab) (z : ZenState) (r1 : RunResult)
    (kb : Option (List String)) (tp : String) :
    kbBuildArgs (stage_genApply c z r1 kb tp).2.2 = [] ∧
    cleanupEnterArgs (stage_genApply c z r1 kb tp).2.2 = [] ∧
    cleanupCallArgs (stage_genApply c z r1 kb tp).2.2 = [] := by
  unfold stage_genApply
  cases c.generate_improvements kb tp z.files_to_update with
  | error e => simp [kbBuildArgs, cleanupEnterArgs, cleanupCallArgs]
  | ok improvements =>
    by_cases hi : improvements.isEmpty
    · simp [hi, kbBuildArgs, cleanupEnterArgs, cleanupCallArgs]
    · simp only [hi, Bool.false_eq_true, if_false]
      cases c.apply_improvements tp improvements z.branch_name
        (commitMsgFor improvements.length) <;>
        simp [kbBuildArgs, cleanupEnterArgs, cleanupCallArgs]

/-- The knowledge-build invocations recorded by `stage_kb`: exactly one,
with exactly the source paths, when they are non-empty; none otherwise. -/
lemma stage_kb_trace (c : Collab) (sp : List String) :
    kbBuildArgs (stage_kb c sp).2 = (if sp.isEmpty then [] else [sp]) ∧
    cleanupEnterArgs (stage_kb c sp).2 = [] ∧
    cleanupCallArgs (stage_kb c sp).2 = [] ∧
    applyCallArgs (stage_kb c sp).2 = [] := by
  unfold stage_kb
  by_cases hsp : sp.isEmpty
  · simp [hsp, kbBuildArgs, cleanupEnterArgs, cleanupCallArgs, applyCallArgs]
  · simp only [hsp, Bool.false_eq_true, if_false]
    cases c.knowledge_build sp <;>
      simp [hsp, kbBuildArgs, cleanupEnterArgs, cleanupCallArgs, applyCallArgs]

/-- On success, `stage_kb` returns the knowledge-base state determined by
the source paths. -/
lemma stage_kb_ok (c : Collab) (sp : List String)
    (h : sp.isEmpty = false → c.knowledge_build sp = Except.ok ()) :
    stage_kb c sp =
      (Except.ok (if sp.isEmpty then none else some sp),
       if sp.isEmpty then [] else [Event.kbBuildCall sp]) := by
  unfold stage_kb
  by_cases hsp : sp.isEmpty
  · simp [hsp]
  · simp only [eq_self_iff_true, hsp, Bool.false_eq_true, if_false]
    rw [h (by simp [hsp])]

/-- What `zen_cleanup` records: exactly one wrapper entry with the given paths,
and exactly one collaborator cleanup call iff the paths are non-empty;
it records no other events. -/
lemma zen_cleanup_trace (c : Collab) (ps : List String) :
    cleanupEnterArgs (zen_cleanup c ps) = [ps] ∧
    cleanupCallArgs (zen_cleanup c ps) = (if ps.isEmpty then [] else [ps]) ∧
    kbBuildArgs (zen_cleanup c ps) = [] ∧
    applyCallArgs (zen_cleanup c ps) = [] := by
  unfold zen_cleanup
  by_cases hps : ps.isEmpty
  · simp [hps, cleanupEnterArgs, cleanupCallArgs, kbBuildArgs, applyCallArgs]
  · simp only [hps, Bool.false_eq_true, if_false]
    cases c.cleanup_local_paths ps <;>
      simp [hps, cleanupEnterArgs, cleanupCallArgs, kbBuildArgs, applyCallArgs]

/-! ## `runBody` characterization -/

/-- Exhaustive case analysis of the `try` body: clone failure, clone-count
mismatch, knowledge-build failure, or hand-off to the generate/apply
stage. -/
lemma runBody_shape (c : Collab) (z : ZenState) :
    (∃ e, c.clone_repositories (cloneUrls z) = Except.error e ∧
      runBody c z = ⟨initResult z (cloneUrls z).length, some e, [],
        [Event.cloneCall (cloneUrls z)]⟩) ∨
    (∃ ps, c.clone_repositories (cloneUrls z) = Except.ok ps ∧
      ps.length ≠ (cloneUrls z).length ∧
      runBody c z = ⟨initResult z (cloneUrls z).length, some integrityErr, ps,
        [Event.cloneCall (cloneUrls z)]⟩) ∨
    (∃ ps e tr, c.clone_repositories (cloneUrls z) = Except.ok ps ∧
      ps.length = (cloneUrls z).length ∧
      stage_kb c ps.dropLast = (Except.error e, tr) ∧
      runBody c z = ⟨r1Of z ps, some e, ps,
        Event.cloneCall (cloneUrls z) :: tr⟩) ∨
    (∃ ps kb tr, c.clone_repositories (cloneUrls z) = Except.ok ps ∧
      ps.length = (cloneUrls z).length ∧
      stage_kb c ps.dropLast = (Except.ok kb, tr) ∧
      runBody c z = ⟨(stage_genApply c z (r1Of z ps) kb (ps.getLastD "")).1,
        (stage_genApply c z (r1Of z ps) kb (ps.getLastD "")).2.1, ps,
        Event.cloneCall (cloneUrls z) ::
          (tr ++ (stage_genApply c z (r1Of z ps) kb (ps.getLastD "")).2.2)⟩) := by
  unfold runBody
  dsimp only
  cases hc : c.clone_repositories (z.source_repo_urls ++ [z.target_repo_url]) with
  | error e => exact Or.inl ⟨e, hc, rfl⟩
  | ok ps =>
    by_cases hlen : ps.length = (z.source_repo_urls ++ [z.target_repo_url]).length
    · simp only [hlen, ne_eq, not_true_eq_false, if_false]
      cases hkb : stage_kb c ps.dropLast with
      | mk fst tr =>
        cases fst with
        | error e =>
          refine Or.inr (Or.inr (Or.inl ⟨ps, e, tr, hc, hlen, hkb, ?_⟩))
          simp only [hkb]
          rfl
        | ok kb =>
          refine Or.inr (Or.inr (Or.inr ⟨ps, kb, tr, hc, hlen, hkb, ?_⟩))
          simp only [hkb]
          rfl
    · simp only [ne_eq, hlen, not_false_eq_true, if_true]
      exact Or.inr (Or.inl ⟨ps, hc, hlen, rfl⟩)

/-! ## Derived lemmas about `runBody` and `run` -/

lemma cleanupEnterArgs_append (l1 l2 : List Event) :
    cleanupEnterArgs (l1 ++ l2) = cleanupEnterArgs l1 ++ cleanupEnterArgs l2 :=
  List.filterMap_append l1 l2 _

lemma cleanupCallArgs_append (l1 l2 : List Event) :
    cleanupCallArgs (l1 ++ l2) = cleanupCallArgs l1 ++ cleanupCallArgs l2 :=
  List.filterMap_append l1 l2 _

lemma kbBuildArgs_append (l1 l2 : List Event) :
    kbBuildArgs (l1 ++ l2) = kbBuildArgs l1 ++ kbBuildArgs l2 :=
  List.filterMap_append l1 l2 _

lemma applyCallArgs_append (l1 l2 : List Event) :
    applyCallArgs (l1 ++ l2) = applyCallArgs l1 ++ applyCallArgs l2 :=
  List.filterMap_append l1 l2 _

/-- Fields of the result dictionary that no stage of the body ever
touches: `repositories_analyzed` and `files_targeted` keep their
initial values, and the body never writes `error`. -/
lemma runBody_untouched_fields (c : Collab) (z : ZenState) :
    (runBody c z).result.repositories_analyzed = z.source_repo_urls.length + 1 ∧
    (runBody c z).result.files_targeted = filesTargetedOf z.files_to_update ∧
    (runBody c z).result.error = none := by
  have hT : (cloneUrls z).length = z.source_repo_urls.length + 1 := by
    simp [cloneUrls]
  rcases runBody_shape c z with ⟨e, hc, hb⟩ | ⟨ps, hc, hne, hb⟩ |
    ⟨ps, e, tr, hc, hlen, hkb, hb⟩ | ⟨ps, kb, tr, hc, hlen, hkb, hb⟩ <;> rw [hb]
  · simp [initResult, hT]
  · simp [initResult, hT]
  · simp [r1Of, initResult, hT]
  · obtain ⟨h1, h2, h3⟩ := stage_genApply_preserves c z (r1Of z ps) kb (ps.getLastD "")
    simp only [h1, h2, h3]
    simp [r1Of, initResult, hT]

/-- When an exception escapes the body, the result dictionary still has
its pre-generate shape: not successful, no `improvements_generated`, no
`new_branch`, zero `improvements_applied`. -/
lemma runBody_exn_fields (c : Collab) (z : ZenState) (e : PyExn)
    (h : (runBody c z).exn = some e) :
    (runBody c z).result.success = false ∧
    (runBody c z).result.improvements_generated = none ∧
    (runBody c z).result.new_branch = none ∧
    (runBody c z).result.improvements_applied = 0 := by
  rcases runBody_shape c z with ⟨e', hc, hb⟩ | ⟨ps, hc, hne, hb⟩ |
    ⟨ps, e', tr, hc, hlen, hkb, hb⟩ | ⟨ps, kb, tr, hc, hlen, hkb, hb⟩ <;> rw [hb]
  · simp [initResult]
  · simp [initResult]
  · simp [r1Of, initResult]
  · rw [hb] at h
    have hr := stage_genApply_exn_result c z (r1Of z ps) kb (ps.getLastD "") e h
    rw [hr]
    simp [r1Of, initResult]

/-- The body trace contains no cleanup events: cleanup happens only in the
`finally` block. -/
lemma runBody_no_cleanup_events (c : Collab) (z : ZenState) :
    cleanupEnterArgs (runBody c z).trace = [] ∧
    cleanupCallArgs (runBody c z).trace = [] := by
  rcases runBody_shape c z with ⟨e, hc, hb⟩ | ⟨ps, hc, hne, hb⟩ |
    ⟨ps, e, tr, hc, hlen, hkb, hb⟩ | ⟨ps, kb, tr, hc, hlen, hkb, hb⟩ <;> rw [hb]
  · simp [cleanupEnterArgs, cleanupCallArgs]
  · simp [cleanupEnterArgs, cleanupCallArgs]
  · have h2 := stage_kb_trace c ps.dropLast
    rw [hkb] at h2
    dsimp only at h2
    exact ⟨h2.2.1, h2.2.2.1⟩
  · have h2 := stage_kb_trace c ps.dropLast
    rw [hkb] at h2
    dsimp only at h2
    have h3 := stage_genApply_trace c z (r1Of z ps) kb (ps.getLastD "")
    refine ⟨?_, ?_⟩
    · show cleanupEnterArgs
        (tr ++ (stage_genApply c z (r1Of z ps) kb (ps.getLastD "")).2.2) = []
      rw [cleanupEnterArgs_append, h2.2.1, h3.2.1]
      rfl
    · show cleanupCallArgs
        (tr ++ (stage_genApply c z (r1Of z ps) kb (ps.getLastD "")).2.2) = []
      rw [cleanupCallArgs_append, h2.2.2.1, h3.2.2]
      rfl

/-- The `finally` trace: `run`'s trace is the body trace followed by the
cleanup trace. -/
lemma run_trace_eq (c : Collab) (z : ZenState) :
    (run c z).2 = (runBody c z).trace ++ zen_cleanup c (runBody c z).all_local_paths := by
  rfl

/-- The final result: the body result, with `error` populated from the
escaping exception when there is one. -/
lemma run_result_eq (c : Collab) (z : ZenState) :
    (run c z).1 =
      (match (runBody c z).exn with
       | none => (runBody c z).result
       | some e => { (runBody c z).result with error := some (classifyError e) }) := by
  rfl

/-- The value of `all_local_paths` at cleanup time: the cloned paths when
the clone call returned, the initial empty list when it raised. -/
lemma runBody_paths (c : Collab) (z : ZenState) :
    (∀ ps, c.clone_repositories (cloneUrls z) = Except.ok ps →
      (runBody c z).all_local_paths = ps) ∧
    (∀ e, c.clone_repositories (cloneUrls z) = Except.error e →
      (runBody c z).all_local_paths = []) := by
  constructor
  · intro ps' hps'
    rcases runBody_shape c z with ⟨e, hc, hb⟩ | ⟨ps, hc, hne, hb⟩ |
      ⟨ps, e, tr, hc, hlen, hkb, hb⟩ | ⟨ps, kb, tr, hc, hlen, hkb, hb⟩ <;>
      rw [hb] <;> rw [hc] at hps' <;> simp_all
  · intro e' he'
    rcases runBody_shape c z with ⟨e, hc, hb⟩ | ⟨ps, hc, hne, hb⟩ |
      ⟨ps, e, tr, hc, hlen, hkb, hb⟩ | ⟨ps, kb, tr, hc, hlen, hkb, hb⟩ <;>
      rw [hb] <;> rw [hc] at he' <;> simp_all

/-- Computation of the generate/apply stage when the generator returns an
empty list: the successful no-op early return (zen.py lines 164-168). -/
lemma stage_genApply_empty (c : Collab) (z : ZenState) (r1 : RunResult)
    (kb : Option (List String)) (tp : String)
    (h : c.generate_improvements kb tp z.files_to_update = Except.ok []) :
    stage_genApply c z r1 kb tp =
      ({ r1 with success := true, improvements_generated := some 0 }, none,
       [Event.generateCall kb tp z.files_to_update]) := by
  unfold stage_genApply
  rw [h]
  rfl

/-- Computation of the generate/apply stage when the generator returns a
non-empty list and the apply call succeeds (zen.py lines 170-189). -/
lemma stage_genApply_applied (c : Collab) (z : ZenState) (r1 : RunResult)
    (kb : Option (List String)) (tp : String) (imps applied : List String)
    (himps : imps ≠ [])
    (hgen : c.generate_improvements kb tp z.files_to_update = Except.ok imps)
    (happ : c.apply_improvements tp imps z.branch_name (commitMsgFor imps.length) =
      Except.ok applied) :
    stage_genApply c z r1 kb tp =
      ({ r1 with
          improvements_generated := some imps.length
          improvements_applied := applied.length
          new_branch := some z.branch_name
          success := true }, none,
       [Event.generateCall kb tp z.files_to_update,
        Event.applyCall tp imps z.branch_name (commitMsgFor imps.length)]) := by
  unfold stage_genApply
  rw [hgen]
  dsimp only
  rw [if_neg (by simpa using himps)]
  rw [happ]

/-- What cleanup the whole of `run` performs: the wrapper runs exactly
once with `all_local_paths`, and the collaborator cleanup runs exactly
once with those paths iff they are non-empty. -/
lemma run_cleanup_trace (c : Collab) (z : ZenState) :
    cleanupEnterArgs (run c z).2 = [(runBody c z).all_local_paths] ∧
    cleanupCallArgs (run c z).2 =
      (if (runBody c z).all_local_paths.isEmpty then []
       else [(runBody c z).all_local_paths]) := by
  obtain ⟨h1, h2⟩ := runBody_no_cleanup_events c z
  obtain ⟨g1, g2, g3, g4⟩ := zen_cleanup_trace c (runBody c z).all_local_paths
  rw [run_trace_eq, cleanupEnterArgs_append, cleanupCallArgs_append, h1, h2, g1, g2]
  exact ⟨rfl, rfl⟩

/-- Computation of the body when the clone stage returns the right number
of paths and the knowledge build succeeds whenever it is attempted: the
run reaches the generate/apply stage. -/
lemma runBody_happy_clone_kb (c : Collab) (z : ZenState) (ps : List String)
    (hclone : c.clone_repositories (cloneUrls z) = Except.ok ps)
    (hlen : ps.length = (cloneUrls z).length)
    (hkb : ps.dropLast.isEmpty = false → c.knowledge_build ps.dropLast = Except.ok ()) :
    runBody c z =
      ⟨(stage_genApply c z (r1Of z ps)
          (if ps.dropLast.isEmpty then none else some ps.dropLast) (ps.getLastD "")).1,
       (stage_genApply c z (r1Of z ps)
          (if ps.dropLast.isEmpty then none else some ps.dropLast) (ps.getLastD "")).2.1,
       ps,
       Event.cloneCall (cloneUrls z) ::
         ((if ps.dropLast.isEmpty then [] else [Event.kbBuildCall ps.dropLast]) ++
          (stage_genApply c z (r1Of z ps)
            (if ps.dropLast.isEmpty then none else some ps.dropLast)
            (ps.getLastD "")).2.2)⟩ := by
  have hsk := stage_kb_ok c ps.dropLast hkb
  rcases runBody_shape c z with ⟨e, hc, hb⟩ | ⟨ps', hc, hne, hb⟩ |
    ⟨ps', e, tr, hc, hlen', hkb', hb⟩ | ⟨ps', kb, tr, hc, hlen', hkb', hb⟩
  · rw [hclone] at hc
    cases hc
  · rw [hclone] at hc
    obtain rfl := Except.ok.inj hc
    exact absurd hlen hne
  · rw [hclone] at hc
    obtain rfl := Except.ok.inj hc
    rw [hsk] at hkb'
    simp at hkb'
  · rw [hclone] at hc
    obtain rfl := Except.ok.inj hc
    rw [hsk] at hkb'
    simp only [Prod.mk.injEq, Except.ok.injEq] at hkb'
    obtain ⟨rfl, rfl⟩ := hkb'
    exact hb

/-! ## Claim theorems -/

/-- C1: for every collaborator behaviour and validated request, `run` is a
total function into run results (the embedding returns, never raises), and
any exception escaping the staged body is caught and converted into a
result with `success = false` and a populated, classified `error` field. -/
theorem run_converts_body_exceptions (c : Collab) (z : ZenState) (e : PyExn)
    (h : (runBody c z).exn = some e) :
    (run c z).1.success = false ∧
    (run c z).1.error = some (classifyError e) := by
  have hf := runBody_exn_fields c z e h
  rw [run_result_eq, h]
  exact ⟨hf.1, rfl⟩

/-- Witness for C1: a clone failure is converted into a structured
failure result. -/
theorem run_converts_body_exceptions_witness :
    (run collabCloneFail zTwoSources).1.success = false ∧
    (run collabCloneFail zTwoSources).1.error =
      some "Operational failure: OSError: network down" :=
  run_converts_body_exceptions collabCloneFail zTwoSources
    ⟨false, "OSError", "network down"⟩ rfl

/-- C2 counterexample: when cloning raises before returning any paths,
`all_local_paths` is empty and the Repository Access cleanup collaborator
(`cleanup_local_paths`) is never invoked — `Zen._cleanup` returns early on
an empty list — refuting "invoked exactly once ... including the case
where that list is empty". -/
theorem cleanup_collaborator_not_called_on_empty :
    (runBody collabCloneFail zTwoSources).all_local_paths = [] ∧
    (run collabCloneFail zTwoSources).2 =
      [Event.cloneCall ["S1", "S2", "T"], Event.cleanupEnter []] ∧
    cleanupCallArgs (run collabCloneFail zTwoSources).2 = [] := by
  decide

/-- C2 (amended): on every exit path the cleanup wrapper `Zen._cleanup`
runs exactly once with exactly the clone-stage path list (the cloned paths
when cloning returned, the empty list when it raised), and the Repository
Access cleanup collaborator is invoked exactly once with that list when it
is non-empty — and not at all when it is empty. -/
theorem cleanup_wrapper_once_collaborator_iff_nonempty (c : Collab) (z : ZenState) :
    cleanupEnterArgs (run c z).2 = [(runBody c z).all_local_paths] ∧
    cleanupCallArgs (run c z).2 =
      (if (runBody c z).all_local_paths.isEmpty then []
       else [(runBody c z).all_local_paths]) ∧
    (∀ ps, c.clone_repositories (cloneUrls z) = Except.ok ps →
      (runBody c z).all_local_paths = ps) ∧
    (∀ e, c.clone_repositories (cloneUrls z) = Except.error e →
      (runBody c z).all_local_paths = []) :=
  ⟨(run_cleanup_trace c z).1, (run_cleanup_trace c z).2,
   (runBody_paths c z).1, (runBody_paths c z).2⟩

/-- Witness for the amended C2: with well-behaved collaborators the
wrapper and the collaborator cleanup each run once with the cloned
paths. -/
theorem cleanup_wrapper_once_collaborator_iff_nonempty_witness :
    (runBody collabNoop zTwoSources).all_local_paths =
      ["/tmp/S1", "/tmp/S2", "/tmp/T"] ∧
    cleanupEnterArgs (run collabNoop zTwoSources).2 =
      [["/tmp/S1", "/tmp/S2", "/tmp/T"]] :=
  ⟨(cleanup_wrapper_once_collaborator_iff_nonempty collabNoop zTwoSources).2.2.1
      ["/tmp/S1", "/tmp/S2", "/tmp/T"] rfl,
   by rw [(cleanup_wrapper_once_collaborator_iff_nonempty collabNoop zTwoSources).1]
      rfl⟩

/-- C3: when the generator returns an empty sequence the run is a
successful no-op: `success = true`, `improvements_generated = 0`,
`improvements_applied = 0`, and `apply_improvements` is never invoked. -/
theorem empty_generation_noop_success (c : Collab) (z : ZenState) (ps : List String)
    (hclone : c.clone_repositories (cloneUrls z) = Except.ok ps)
    (hlen : ps.length = (cloneUrls z).length)
    (hkb : ps.dropLast.isEmpty = false → c.knowledge_build ps.dropLast = Except.ok ())
    (hgen : c.generate_improvements
        (if ps.dropLast.isEmpty then none else some ps.dropLast)
        (ps.getLastD "") z.files_to_update = Except.ok []) :
    (run c z).1.success = true ∧
    (run c z).1.improvements_generated = some 0 ∧
    (run c z).1.improvements_applied = 0 ∧
    applyCallArgs (run c z).2 = [] := by
  have hb := runBody_happy_clone_kb c z ps hclone hlen hkb
  rw [stage_genApply_empty c z (r1Of z ps) _ _ hgen] at hb
  obtain ⟨g1, g2, g3, g4⟩ := zen_cleanup_trace c (runBody c z).all_local_paths
  refine ⟨?_, ?_, ?_, ?_⟩
  · rw [run_result_eq, hb]
  · rw [run_result_eq, hb]
  · rw [run_result_eq, hb]
    rfl
  · rw [run_trace_eq, applyCallArgs_append, g4, List.append_nil, hb]
    by_cases hsp : ps.dropLast.isEmpty <;> simp [hsp, applyCallArgs]

/-- Witness for C3: two sources, generator finds nothing. -/
theorem empty_generation_noop_success_witness :
    (run collabNoop zTwoSources).1.success = true ∧
    (run collabNoop zTwoSources).1.improvements_generated = some 0 ∧
    (run collabNoop zTwoSources).1.improvements_applied = 0 ∧
    applyCallArgs (run collabNoop zTwoSources).2 = [] :=
  empty_generation_noop_success collabNoop zTwoSources
    ["/tmp/S1", "/tmp/S2", "/tmp/T"] rfl rfl (fun _ => rfl) rfl

/-- C4: a clone-count mismatch raises the integrity `RuntimeError`
internally; the run reports `success = false` with an operational-failure
classification, and the cleanup wrapper still receives exactly the paths
the clone call returned. -/
theorem clone_count_mismatch_is_integrity_failure (c : Collab) (z : ZenState)
    (ps : List String)
    (hclone : c.clone_repositories (cloneUrls z) = Except.ok ps)
    (hne : ps.length ≠ (cloneUrls z).length) :
    (runBody c z).exn = some integrityErr ∧
    (run c z).1.success = false ∧
    (run c z).1.error = some
      "Operational failure: RuntimeError: GitManager failed to clone all specified repositories." ∧
    cleanupEnterArgs (run c z).2 = [ps] := by
  rcases runBody_shape c z with ⟨e, hc, hb⟩ | ⟨ps', hc, hne', hb⟩ |
    ⟨ps', e, tr, hc, hlen', hkb', hb⟩ | ⟨ps', kb, tr, hc, hlen', hkb', hb⟩
  · rw [hclone] at hc
    cases hc
  · rw [hclone] at hc
    obtain rfl := Except.ok.inj hc
    refine ⟨by rw [hb], ?_, ?_, ?_⟩
    · rw [run_result_eq, hb]
      rfl
    · rw [run_result_eq, hb]
      rfl
    · have h1 := (run_cleanup_trace c z).1
      rw [hb] at h1
      exact h1
  · rw [hclone] at hc
    obtain rfl := Except.ok.inj hc
    exact absurd hlen' hne
  · rw [hclone] at hc
    obtain rfl := Except.ok.inj hc
    exact absurd hlen' hne

/-- Witness for C4: three repositories requested, one path returned. -/
theorem clone_count_mismatch_is_integrity_failure_witness :
    (run collabShortClone zTwoSources).1.success = false ∧
    cleanupEnterArgs (run collabShortClone zTwoSources).2 = [["/tmp/only"]] :=
  ⟨(clone_count_mismatch_is_integrity_failure collabShortClone zTwoSources
      ["/tmp/only"] rfl (by decide)).2.1,
   (clone_count_mismatch_is_integrity_failure collabShortClone zTwoSources
      ["/tmp/only"] rfl (by decide)).2.2.2⟩

/-- Computation of `zen_init` for an empty target: the check at zen.py
line 62 fires before anything else. -/
lemma zen_init_empty_target (env : Env) (srcs : List String)
    (files : Option (List String)) (b : String) (mi : Int) (sc : Bool) :
    zen_init env "" srcs files b mi sc =
      (Except.error ⟨true, "ZenConfigError", "Target repository URL cannot be empty."⟩,
       []) := by
  unfold zen_init
  rw [if_pos rfl]

/-- Computation of `zen_init` when the target is non-empty and credentials
are missing: the three collaborators are instantiated and then
`_validate_environment` raises. -/
lemma zen_init_missing_creds (env : Env) (t : String) (srcs : List String)
    (files : Option (List String)) (b : String) (mi : Int) (sc : Bool)
    (ht : t ≠ "") (hmiss : missingVars env ≠ []) :
    zen_init env t srcs files b mi sc =
      (Except.error ⟨true, "ZenConfigError",
        "Missing required environment variables: " ++
          String.intercalate ", " (missingVars env)⟩,
       [InitEvent.gitManagerInit, InitEvent.knowledgeBaseInit,
        InitEvent.evolutionEngineInit]) := by
  unfold zen_init
  rw [if_neg ht]
  dsimp only
  unfold validate_environment
  dsimp only
  rw [if_neg (by simpa using hmiss)]

/-- C5: whenever any required credential variable is absent (or empty) and
construction reaches the credential check, a configuration error is
raised whose message joins the full list of missing names — and that list
contains every required variable that is missing, not just the first. -/
theorem missing_credentials_all_listed (env : Env) (t : String)
    (srcs : List String) (files : Option (List String)) (b : String)
    (mi : Int) (sc : Bool) (ht : t ≠ "") (hmiss : missingVars env ≠ []) :
    (zen_init env t srcs files b mi sc).1 =
      Except.error ⟨true, "ZenConfigError",
        "Missing required environment variables: " ++
          String.intercalate ", " (missingVars env)⟩ ∧
    ∀ v ∈ REQUIRED_ENV_VARS, envFalsy env v = true → v ∈ missingVars env := by
  refine ⟨?_, ?_⟩
  · rw [zen_init_missing_creds env t srcs files b mi sc ht hmiss]
  · intro v hv hfal
    exact List.mem_filter.mpr ⟨hv, hfal⟩

/-- Witness for C5: only `GEMINI_API_KEY` missing; its name is listed. -/
theorem missing_credentials_all_listed_witness :
    (zen_init [("GITHUB_TOKEN", "x")] "T" [] none "zen-improvement" 10 true).1 =
      Except.error ⟨true, "ZenConfigError",
        "Missing required environment variables: GEMINI_API_KEY"⟩ ∧
    "GEMINI_API_KEY" ∈ missingVars [("GITHUB_TOKEN", "x")] := by
  have h := missing_credentials_all_listed [("GITHUB_TOKEN", "x")] "T" [] none
    "zen-improvement" 10 true (by decide) (by decide)
  exact ⟨by rw [h.1]; rfl, h.2 "GEMINI_API_KEY" (by decide) (by decide)⟩

/-- C6 counterexample: the generator returns two improvements and the
apply call reports one applied; the commit message passed to
`apply_improvements` says "Applied 2" (the *generated* count, computed at
zen.py line 171 before the apply call returns), while the result records
`improvements_applied = 1` — refuting "the commit message states the
applied count". -/
theorem commit_message_uses_generated_not_applied_count :
    applyCallArgs (run collabPartialApply zNoSources).2 =
      [("/tmp/T", ["i1", "i2"], "zen-improvement",
        "Zen Improvement: Applied 2 generated changes.")] ∧
    (run collabPartialApply zNoSources).1.improvements_applied = 1 ∧
    (run collabPartialApply zNoSources).1.improvements_generated = some 2 := by
  decide

/-- C6 (amended): for every run reaching the apply stage, the commit
message states the *generated* count (`commitMsgFor improvements.length`),
and the result records as `improvements_applied` the length of the list
the collaborator reported applied (which may be smaller). -/
theorem apply_stage_message_and_counts (c : Collab) (z : ZenState)
    (ps imps applied : List String)
    (hclone : c.clone_repositories (cloneUrls z) = Except.ok ps)
    (hlen : ps.length = (cloneUrls z).length)
    (hkb : ps.dropLast.isEmpty = false → c.knowledge_build ps.dropLast = Except.ok ())
    (himps : imps ≠ [])
    (hgen : c.generate_improvements
        (if ps.dropLast.isEmpty then none else some ps.dropLast)
        (ps.getLastD "") z.files_to_update = Except.ok imps)
    (happ : c.apply_improvements (ps.getLastD "") imps z.branch_name
        (commitMsgFor imps.length) = Except.ok applied) :
    applyCallArgs (run c z).2 =
      [(ps.getLastD "", imps, z.branch_name, commitMsgFor imps.length)] ∧
    (run c z).1.improvements_applied = applied.length ∧
    (run c z).1.improvements_generated = some imps.length ∧
    (run c z).1.new_branch = some z.branch_name ∧
    (run c z).1.success = true := by
  have hb := runBody_happy_clone_kb c z ps hclone hlen hkb
  rw [stage_genApply_applied c z (r1Of z ps) _ _ imps applied himps hgen happ] at hb
  obtain ⟨g1, g2, g3, g4⟩ := zen_cleanup_trace c (runBody c z).all_local_paths
  refine ⟨?_, ?_, ?_, ?_, ?_⟩
  · rw [run_trace_eq, applyCallArgs_append, g4, List.append_nil, hb]
    by_cases hsp : ps.dropLast.isEmpty <;> simp [hsp, applyCallArgs]
  · rw [run_result_eq, hb]
  · rw [run_result_eq, hb]
  · rw [run_result_eq, hb]
  · rw [run_result_eq, hb]

/-- Witness for the amended C6: generated 2, applied 1, message says 2. -/
theorem apply_stage_message_and_counts_witness :
    applyCallArgs (run collabPartialApply zNoSources).2 =
      [("/tmp/T", ["i1", "i2"], "zen-improvement", commitMsgFor 2)] ∧
    (run collabPartialApply zNoSources).1.improvements_applied = 1 :=
  ⟨(apply_stage_message_and_counts collabPartialApply zNoSources
      ["/tmp/T"] ["i1", "i2"] ["a1"] rfl rfl (fun _ => rfl)
      (by decide) rfl rfl).1,
   (apply_stage_message_and_counts collabPartialApply zNoSources
      ["/tmp/T"] ["i1", "i2"] ["a1"] rfl rfl (fun _ => rfl)
      (by decide) rfl rfl).2.1⟩

/-- C7 counterexample: with a non-empty target and missing credentials,
construction does fail with a configuration error, but the three
collaborators were already instantiated before the failing validation —
refuting "no collaborator is instantiated before the failing
validation". -/
theorem collaborators_instantiated_before_failing_validation :
    (zen_init [] "T" [] none "zen-improvement" 10 true).1 =
      Except.error ⟨true, "ZenConfigError",
        "Missing required environment variables: GITHUB_TOKEN, GEMINI_API_KEY"⟩ ∧
    (zen_init [] "T" [] none "zen-improvement" 10 true).2 =
      [InitEvent.gitManagerInit, InitEvent.knowledgeBaseInit,
       InitEvent.evolutionEngineInit] ∧
    (zen_init [] "T" [] none "zen-improvement" 10 true).2 ≠ [] :=
  ⟨rfl, rfl, by decide⟩

/-- C7 (amended): an empty target fails immediately, before any
collaborator is instantiated; missing credentials with a non-empty target
fail with a configuration error during construction — before `run` and
any staged I/O, but after the three collaborators have been
instantiated. -/
theorem construction_validation_order (env : Env) (t : String)
    (srcs : List String) (files : Option (List String)) (b : String)
    (mi : Int) (sc : Bool) :
    (t = "" → zen_init env t srcs files b mi sc =
      (Except.error ⟨true, "ZenConfigError", "Target repository URL cannot be empty."⟩,
       [])) ∧
    (t ≠ "" → missingVars env ≠ [] →
      (zen_init env t srcs files b mi sc).1 =
        Except.error ⟨true, "ZenConfigError",
          "Missing required environment variables: " ++
            String.intercalate ", " (missingVars env)⟩ ∧
      (zen_init env t srcs files b mi sc).2 =
        [InitEvent.gitManagerInit, InitEvent.knowledgeBaseInit,
         InitEvent.evolutionEngineInit]) := by
  refine ⟨?_, ?_⟩
  · intro ht
    subst ht
    exact zen_init_empty_target env srcs files b mi sc
  · intro ht hmiss
    rw [zen_init_missing_creds env t srcs files b mi sc ht hmiss]
    exact ⟨rfl, rfl⟩

/-- Witness for the amended C7: both failure modes at concrete inputs. -/
theorem construction_validation_order_witness :
    zen_init [("GITHUB_TOKEN", "x"), ("GEMINI_API_KEY", "y")] "" [] none
        "zen-improvement" 10 true =
      (Except.error ⟨true, "ZenConfigError", "Target repository URL cannot be empty."⟩,
       []) ∧
    (zen_init [] "T" [] none "zen-improvement" 10 true).2 =
      [InitEvent.gitManagerInit, InitEvent.knowledgeBaseInit,
       InitEvent.evolutionEngineInit] :=
  ⟨(construction_validation_order [("GITHUB_TOKEN", "x"), ("GEMINI_API_KEY", "y")]
      "" [] none "zen-improvement" 10 true).1 rfl,
   ((construction_validation_order [] "T" [] none "zen-improvement" 10 true).2
      (by decide) (by decide)).2⟩

/-- C8: for every collaborator behaviour and request, on every outcome of
`run` the result's `repositories_analyzed` equals `len(sources) + 1`: it
is set when the result dictionary is initialized, before any I/O, and no
later stage or handler modifies it. -/
theorem repositories_analyzed_always (c : Collab) (z : ZenState) :
    (run c z).1.repositories_analyzed = z.source_repo_urls.length + 1 := by
  have hu := (runBody_untouched_fields c z).1
  cases he : (runBody c z).exn <;> rw [run_result_eq, he] <;> exact hu

/-- C9: whenever the clone stage returns the full set of paths, the
knowledge-base build is invoked exactly once with exactly the source
paths (all cloned paths except the last, hence never the target path) iff
that list is non-empty, and not at all when it is empty — the empty case
proceeds without error. -/
theorem kb_build_iff_sources_nonempty (c : Collab) (z : ZenState)
    (ps : List String)
    (hclone : c.clone_repositories (cloneUrls z) = Except.ok ps)
    (hlen : ps.length = (cloneUrls z).length) :
    kbBuildArgs (run c z).2 =
      (if ps.dropLast.isEmpty then [] else [ps.dropLast]) := by
  obtain ⟨g1, g2, g3, g4⟩ := zen_cleanup_trace c (runBody c z).all_local_paths
  rw [run_trace_eq, kbBuildArgs_append, g3, List.append_nil]
  rcases runBody_shape c z with ⟨e, hc, hb⟩ | ⟨ps', hc, hne', hb⟩ |
    ⟨ps', e, tr, hc, hlen', hkb', hb⟩ | ⟨ps', kb, tr, hc, hlen', hkb', hb⟩
  · rw [hclone] at hc
    cases hc
  · rw [hclone] at hc
    obtain rfl := Except.ok.inj hc
    exact absurd hlen hne'
  · rw [hclone] at hc
    obtain rfl := Except.ok.inj hc
    have h2 := (stage_kb_trace c ps.dropLast).1
    rw [hkb'] at h2
    dsimp only at h2
    rw [hb]
    exact h2
  · rw [hclone] at hc
    obtain rfl := Except.ok.inj hc
    have h2 := (stage_kb_trace c ps.dropLast).1
    rw [hkb'] at h2
    dsimp only at h2
    have h3 := (stage_genApply_trace c z (r1Of z ps) kb (ps.getLastD "")).1
    rw [hb]
    show kbBuildArgs
      (tr ++ (stage_genApply c z (r1Of z ps) kb (ps.getLastD "")).2.2) = _
    rw [kbBuildArgs_append, h2, h3, List.append_nil]

/-- Witness for C9: two sources cloned; the build receives exactly the two
source paths, not the target path. -/
theorem kb_build_iff_sources_nonempty_witness :
    kbBuildArgs (run collabNoop zTwoSources).2 = [["/tmp/S1", "/tmp/S2"]] := by
  rw [kb_build_iff_sources_nonempty collabNoop zTwoSources
    ["/tmp/S1", "/tmp/S2", "/tmp/T"] rfl rfl]
  rfl

/-- C10: whenever `run` fails (its result carries an `error` field), the
result has no `improvements_generated` and no `new_branch` key, and keeps
the fields initialized before the `try` body: `success = false`,
`improvements_applied = 0`, `repositories_analyzed = len(sources) + 1`,
and the files-targeted descriptor; `improvements_generated` is added only
on the no-op-success and applied-success paths. -/
theorem failed_run_omits_generated_fields (c : Collab) (z : ZenState)
    (msg : String) (h : (run c z).1.error = some msg) :
    (run c z).1.success = false ∧
    (run c z).1.improvements_generated = none ∧
    (run c z).1.new_branch = none ∧
    (run c z).1.improvements_applied = 0 ∧
    (run c z).1.repositories_analyzed = z.source_repo_urls.length + 1 ∧
    (run c z).1.files_targeted = filesTargetedOf z.files_to_update := by
  have hu := runBody_untouched_fields c z
  cases he : (runBody c z).exn with
  | none =>
    exfalso
    rw [run_result_eq, he, hu.2.2] at h
    cases h
  | some e =>
    have hf := runBody_exn_fields c z e he
    rw [run_result_eq, he]
    exact ⟨hf.1, hf.2.1, hf.2.2.1, hf.2.2.2, hu.1, hu.2.1⟩

/-- Witness for C10: a failing clone yields a result carrying only the
pre-initialized fields plus the error. -/
theorem failed_run_omits_generated_fields_witness :
    (run collabCloneFail zTwoSources).1.improvements_generated = none ∧
    (run collabCloneFail zTwoSources).1.new_branch = none ∧
    (run collabCloneFail zTwoSources).1.repositories_analyzed = 3 :=
  ⟨(failed_run_omits_generated_fields collabCloneFail zTwoSources
      "Operational failure: OSError: network down" rfl).2.1,
   (failed_run_omits_generated_fields collabCloneFail zTwoSources
      "Operational failure: OSError: network down" rfl).2.2.1,
   (failed_run_omits_generated_fields collabCloneFail zTwoSources
      "Operational failure: OSError: network down" rfl).2.2.2.2.1⟩

end Zen
